import Mathlib

/-!
Verification development for the time-based progress calculation engine
(DateCalculator, TimeBasedManager, refresh scheduling) of the
progress-bars repository.

Modelling conventions:
* A JavaScript `Date` is a timestamp: milliseconds since the Unix epoch,
  on the UTC timeline (`Instant := Int`).  An *Invalid Date* (NaN time
  value) is modelled by `JSDate := Option Int` with `none` standing
  for the invalid date; `isValid` from date-fns is `Option.isSome`.
* Calendar components (`getUTCFullYear`, month, day) are derived from the
  timestamp with the standard proleptic-Gregorian civil-calendar
  conversion, exactly as a JS `Date` derives them.
* JS `number` arithmetic on day/hour/minute counts is exact integer
  arithmetic here; percentages are rationals (`ℚ`).  `Math.trunc`
  division and the JS `%` remainder (sign of the dividend) are modelled
  by `jsQuot` / `jsRem` below.
-/

namespace ProgressBars

/-- A JS `Date`: either a valid instant (milliseconds since the Unix epoch
on the UTC timeline, an `Int`) or the Invalid Date (NaN time value,
`none`).  Valid instants are written as plain `Int` throughout. -/
abbrev JSDate := Option Int

/-- date-fns `isValid`: a date is valid when its time value is not NaN. -/
def jsIsValid (d : JSDate) : Bool := d.isSome

/-- Milliseconds in one minute. -/
def msPerMinute : Nat := 60000

/-- Milliseconds in one hour. -/
def msPerHour : Nat := 3600000

/-- Milliseconds in one day. -/
def msPerDay : Nat := 86400000

/-- JS `Math.trunc (a / b)` for a positive integer divisor `b`:
division truncated toward zero. -/
def jsQuot (a : Int) (b : Nat) : Int :=
  if 0 ≤ a then (a.natAbs / b : Nat) else -((a.natAbs / b : Nat) : Int)

/-- JS `a % b` for a positive integer divisor `b`: remainder carrying the
sign of the dividend. -/
def jsRem (a : Int) (b : Nat) : Int :=
  if 0 ≤ a then (a.natAbs % b : Nat) else -((a.natAbs % b : Nat) : Int)

/-- Gregorian leap-year rule (divisible by 4 and not by 100, or by 400),
as in the source's mathematical leap-year check. -/
def isLeapYearGregorian (y : Int) : Bool :=
  (y % 4 == 0 && y % 100 != 0) || y % 400 == 0

/-- Number of days in a month of the proleptic Gregorian calendar. -/
def daysInMonth (y : Int) (m : Nat) : Nat :=
  if m = 2 then (if isLeapYearGregorian y then 29 else 28)
  else if m = 4 ∨ m = 6 ∨ m = 9 ∨ m = 11 then 30
  else 31

/-- Day number (days since 1970-01-01) of a civil date `(y, m, d)`.
Accepts out-of-range `d` with JS `Date` overflow semantics (the result is
`days y m 1 + (d - 1)`), which is exactly how `setDate` normalises. -/
def daysFromCivil (y : Int) (m : Nat) (d : Int) : Int :=
  let y' : Int := if m ≤ 2 then y - 1 else y
  let era : Int := Int.fdiv y' 400
  let yoe : Nat := (y' - era * 400).toNat
  let mp : Nat := if 2 < m then m - 3 else m + 9
  let doy0 : Nat := (153 * mp + 2) / 5
  let doe : Int := (yoe * 365 + yoe / 4 - yoe / 100 + doy0 : Nat) + (d - 1)
  era * 146097 + doe - 719468

/-- Civil date `(year, month, day)` of a day number (days since
1970-01-01), proleptic Gregorian. -/
def civilFromDays (z : Int) : Int × Nat × Nat :=
  let z' : Int := z + 719468
  let era : Int := Int.fdiv z' 146097
  let doe : Nat := (z' - era * 146097).toNat
  let yoe : Nat := (doe - doe / 1460 + doe / 36524 - doe / 146096) / 365
  let y : Int := (yoe : Int) + era * 400
  let doy : Nat := doe - (365 * yoe + yoe / 4 - yoe / 100)
  let mp : Nat := (5 * doy + 2) / 153
  let d : Nat := doy - (153 * mp + 2) / 5 + 1
  let m : Nat := if mp < 10 then mp + 3 else mp - 9
  (if m ≤ 2 then y + 1 else y, m, d)

/-- Day number of an instant (JS derives calendar fields from
`floor(ms / 86400000)`). -/
def dayNumber (t : Int) : Int := Int.fdiv t (msPerDay : Int)

/-- Time of day in milliseconds, in `[0, msPerDay)`. -/
def timeOfDayMs (t : Int) : Int := t - dayNumber t * (msPerDay : Int)

/-- JS `Date.prototype.getUTCFullYear`. -/
def getUTCFullYear (t : Int) : Int := (civilFromDays (dayNumber t)).1

/-- UTC month of an instant, 1-based. -/
def monthOf (t : Int) : Nat := (civilFromDays (dayNumber t)).2.1

/-- JS `getUTCDate`: day of month of an instant. -/
def dayOfMonth (t : Int) : Nat := (civilFromDays (dayNumber t)).2.2

/-- Rebuild an instant from a civil date (with overflow semantics) and a
time of day. -/
def mkFromCivil (y : Int) (m : Nat) (d : Int) (tod : Int) : Int :=
  daysFromCivil y m d * (msPerDay : Int) + tod

/-- JS `setFullYear(y)`: replace the year, keeping month, day-of-month
and time of day (overflow, e.g. Feb 29 in a non-leap year, normalises). -/
def setFullYearJS (t : Int) (y : Int) : Int :=
  mkFromCivil y (monthOf t) (dayOfMonth t) (timeOfDayMs t)

/-- JS `setDate(d)`: replace the day of month (overflow normalises into
the following months). -/
def setDateJS (t : Int) (d : Int) : Int :=
  mkFromCivil (getUTCFullYear t) (monthOf t) d (timeOfDayMs t)

/-- JS `setMonth(m)` with a 0-based month index that may be negative or
beyond 11 (normalises into the year), keeping day and time of day. -/
def setMonthJS (t : Int) (mIdx : Int) : Int :=
  mkFromCivil (getUTCFullYear t + Int.fdiv mIdx 12)
    ((Int.emod mIdx 12).toNat + 1) (dayOfMonth t) (timeOfDayMs t)

/-- date-fns `compareAsc` collapsed to its sign: 1 when `a` is after `b`,
-1 when before, 0 when equal. -/
def signCompare (a b : Int) : Int :=
  if b < a then 1 else if a < b then -1 else 0

/-- date-fns `isBefore`. -/
def isBefore (a b : Int) : Bool := a < b

/-- date-fns `isAfter`. -/
def isAfter (a b : Int) : Bool := b < a

/-- date-fns `differenceInMinutes(l, r)`: whole minutes between the raw
instants, truncated toward zero. -/
def differenceInMinutes (l r : Int) : Int := jsQuot (l - r) msPerMinute

/-- date-fns `differenceInHours(l, r)`: whole hours between the raw
instants, truncated toward zero. -/
def differenceInHours (l r : Int) : Int := jsQuot (l - r) msPerHour

/-- date-fns `differenceInDays(l, r)`.  The library walks calendar days
and compensates for DST; on the fixed-offset UTC timeline this is exactly
the millisecond difference divided by one day, truncated toward zero. -/
def differenceInDays (l r : Int) : Int := jsQuot (l - r) msPerDay

/-- date-fns `differenceInCalendarYears`. -/
def differenceInCalendarYears (l r : Int) : Int :=
  getUTCFullYear l - getUTCFullYear r

/-- date-fns `differenceInCalendarMonths`. -/
def differenceInCalendarMonths (l r : Int) : Int :=
  differenceInCalendarYears l r * 12 + ((monthOf l : Int) - (monthOf r : Int))

/-- date-fns `differenceInYears(l, r)`: number of full years from `r` to
`l`.  The library normalises both dates to the (leap) year 1584 and
subtracts one from the calendar-year distance when the final year is not
complete. -/
def differenceInYears (l r : Int) : Int :=
  let s := signCompare l r
  let d : Int := (differenceInCalendarYears l r).natAbs
  let l' := setFullYearJS l 1584
  let r' := setFullYearJS r 1584
  let notFull : Int := if signCompare l' r' = -s then 1 else 0
  s * (d - notFull)

/-- date-fns `isLastDayOfMonth`. -/
def isLastDayOfMonth (t : Int) : Bool :=
  dayOfMonth t = daysInMonth (getUTCFullYear t) (monthOf t)

/-- date-fns `differenceInMonths(l, r)`: number of full months from `r`
to `l`, with the library's end-of-month adjustments. -/
def differenceInMonths (l r : Int) : Int :=
  let s := signCompare l r
  let d : Int := (differenceInCalendarMonths l r).natAbs
  if d < 1 then 0
  else
    let l₁ := if monthOf l = 2 ∧ 27 < dayOfMonth l then setDateJS l 30 else l
    let l₂ := setMonthJS l₁ ((monthOf l₁ : Int) - 1 - s * d)
    let notFull₀ := signCompare l₂ r = -s
    let notFull :=
      if isLastDayOfMonth l ∧ d = 1 ∧ signCompare l r = 1 then False else notFull₀
    s * (d - if notFull then 1 else 0)

/-- date-fns `addMonths(t, n)`: advance by `n` calendar months, clamping
the day of month to the length of the target month (the library reaches
the clamp via `setMonth(month + n + 1, 0)`), keeping the time of day. -/
def addMonths (t : Int) (n : Int) : Int :=
  if n = 0 then t
  else
    let total : Int := ((monthOf t : Int) - 1) + n
    let y' : Int := getUTCFullYear t + Int.fdiv total 12
    let m' : Nat := (Int.emod total 12).toNat + 1
    let dim := daysInMonth y' m'
    let d' : Nat := if dim ≤ dayOfMonth t then dim else dayOfMonth t
    mkFromCivil y' m' (d' : Int) (timeOfDayMs t)

/-- date-fns `addYears(t, n)` (implemented as `addMonths(t, 12 n)`). -/
def addYears (t : Int) (n : Int) : Int := addMonths t (n * 12)

/-! ## Data model (`src/lib/types.ts`) -/

/-- `Duration`: elapsed/remaining span with calendar-decomposed components
and straight-line totals.  The calculator only ever produces `Math.abs`
values, modelled as `Nat`. -/
structure Duration where
  years : Nat
  months : Nat
  days : Nat
  hours : Nat
  minutes : Nat
  totalDays : Nat
  totalHours : Nat
  totalMinutes : Nat
deriving Repr, DecidableEq

/-- The three time-based bar kinds. -/
inductive TimeBasedType where
  | countUp
  | countDown
  | arrivalDate
deriving Repr, DecidableEq

/-- The fields of a `TimeBasedProgressBar` that `calculateProgress` reads
(it destructures exactly `startDate`, `targetDate`, `timeBasedType`; the
remaining record fields do not influence the calculation). -/
structure TimeBasedBar where
  startDate : Int
  targetDate : Int
  timeBasedType : TimeBasedType
deriving Repr, DecidableEq

/-- `ProgressCalculation`: the result of `calculateProgress`. -/
structure ProgressCalculation where
  currentValue : Int
  targetValue : Int
  percentage : ℚ
  elapsedTime : Duration
  remainingTime : Duration
  dailyProgressRate : ℚ
  estimatedCompletionDate : Option Int
  isCompleted : Bool
  isOverdue : Bool
deriving Repr, DecidableEq

/-- Validation error codes. -/
inductive ValidationErrorCode where
  | INVALID_DATE_RANGE
  | HISTORICAL_LIMIT_EXCEEDED
  | FUTURE_START_DATE
  | INVALID_DATE_FORMAT
deriving Repr, DecidableEq

/-- A validation error: field, message, code. -/
structure ValidationError where
  field : String
  message : String
  code : ValidationErrorCode
deriving Repr, DecidableEq

/-- Result of a validation operation. -/
structure ValidationResult where
  isValid : Bool
  errors : List ValidationError
deriving Repr, DecidableEq

/-! ## DateCalculator (`src/unnamed/part_004`) -/

/-- `DateCalculator.MAX_YEARS`. -/
def MAX_YEARS : Nat := 50

/-- `DateCalculator.zeroDuration`. -/
def zeroDuration : Duration :=
  { years := 0, months := 0, days := 0, hours := 0, minutes := 0
    totalDays := 0, totalHours := 0, totalMinutes := 0 }

/-- `DateCalculator.getDurationInDays`:
`Math.abs(differenceInDays(endDate, startDate))`. -/
def getDurationInDays (startDate endDate : Int) : Int :=
  (differenceInDays endDate startDate).natAbs

/-- `DateCalculator.getElapsedDays`:
`Math.max(0, differenceInDays(currentDate, startDate))`. -/
def getElapsedDays (startDate currentDate : Int) : Int :=
  max 0 (differenceInDays currentDate startDate)

/-- `DateCalculator.calculateDuration`: detailed breakdown between two
dates.  `years`/`months` come from the date-fns full-unit differences,
`days`/`hours`/`minutes` are remainders past the year+month anchor, and
the `total*` fields are straight differences; every component is
`Math.abs`-ed (here: `Int.natAbs`). -/
def calculateDuration (startDate endDate : Int) : Duration :=
  let totalDays := differenceInDays endDate startDate
  let totalHours := differenceInHours endDate startDate
  let totalMinutes := differenceInMinutes endDate startDate
  let years := differenceInYears endDate startDate
  let months := jsRem (differenceInMonths endDate startDate) 12
  let tempDate := addMonths (addYears startDate years) months
  let days := differenceInDays endDate tempDate
  let hours := jsRem (differenceInHours endDate tempDate) 24
  let minutes := jsRem (differenceInMinutes endDate tempDate) 60
  { years := years.natAbs, months := months.natAbs, days := days.natAbs
    hours := hours.natAbs, minutes := minutes.natAbs
    totalDays := totalDays.natAbs, totalHours := totalHours.natAbs
    totalMinutes := totalMinutes.natAbs }

/-- `DateCalculator.calculateProgress`: the central progress calculation
for a time-based bar at a reference instant. -/
def calculateProgress (bar : TimeBasedBar) (currentDate : Int) :
    ProgressCalculation :=
  let startDate := bar.startDate
  let targetDate := bar.targetDate
  let totalDays := getDurationInDays startDate targetDate
  let elapsedDays := getElapsedDays startDate currentDate
  let isBeforeStart := isBefore currentDate startDate
  let elapsedTime :=
    if isBeforeStart then zeroDuration else calculateDuration startDate currentDate
  let remainingDays := max 0 (totalDays - elapsedDays)
  let isAfterTarget := isAfter currentDate targetDate
  let remainingTime :=
    if isAfterTarget then zeroDuration
    else if isBeforeStart then calculateDuration startDate targetDate
    else calculateDuration currentDate targetDate
  let percentage : ℚ :=
    if 0 < totalDays then
      min 100 (max 0 ((elapsedDays : ℚ) / (totalDays : ℚ) * 100))
    else 0
  let dailyProgressRate : ℚ := if 0 < totalDays then 100 / (totalDays : ℚ) else 0
  let isCompleted := decide (100 ≤ percentage) || !(isBefore currentDate targetDate)
  let isOverdue :=
    decide (bar.timeBasedType = .arrivalDate) && isAfter currentDate targetDate
  let estimatedCompletionDate :=
    if bar.timeBasedType = .countUp ∧ isCompleted = false then some targetDate
    else none
  let currentValue :=
    if bar.timeBasedType = .countDown then remainingDays else elapsedDays
  { currentValue := currentValue, targetValue := totalDays
    percentage := percentage, elapsedTime := elapsedTime
    remainingTime := remainingTime, dailyProgressRate := dailyProgressRate
    estimatedCompletionDate := estimatedCompletionDate
    isCompleted := isCompleted, isOverdue := isOverdue }

/-- `DateCalculator.validateTimeScale`: rejects invalid dates, then spans
whose absolute full-year difference exceeds `MAX_YEARS`. -/
def validateTimeScale (startDate endDate : JSDate) : ValidationResult :=
  if ¬ (jsIsValid startDate ∧ jsIsValid endDate) then
    { isValid := false
      errors := [{ field := "dateRange", message := "Invalid date format"
                   code := .INVALID_DATE_FORMAT }] }
  else
    match startDate, endDate with
    | some s, some e =>
      let years : Nat := (differenceInYears e s).natAbs
      let errors : List ValidationError :=
        if MAX_YEARS < years then
          [{ field := "dateRange"
             message := "Date range cannot exceed " ++ toString MAX_YEARS ++ " years"
             code := .INVALID_DATE_RANGE }]
        else []
      { isValid := errors.length == 0, errors := errors }
    | _, _ => { isValid := true, errors := [] }  -- unreachable: both dates valid

/-- `DateCalculator.countLeapYears`: loops `year` from the start date's
UTC year up to the end date's UTC year, counting Gregorian leap years
(the loop body never runs when the start year exceeds the end year). -/
def countLeapYears (startDate endDate : Int) : Nat :=
  let startYear := getUTCFullYear startDate
  let endYear := getUTCFullYear endDate
  ((List.range (endYear + 1 - startYear).toNat).map
    (fun i : Nat => startYear + (i : Int))).countP isLeapYearGregorian

/-- `DateCalculator.formatDuration`: human-readable rendering of a
`Duration`, mirroring the source's part-by-part string assembly. -/
def formatDuration (duration : Duration) : String :=
  let isZero :=
    duration.years == 0 && duration.months == 0 && duration.days == 0 &&
    duration.hours == 0 && duration.minutes == 0
  if isZero then "0 minutes"
  else
    let parts : List String :=
      (if 0 < duration.years then
        [toString duration.years ++ " year" ++ (if duration.years ≠ 1 then "s" else "")]
      else []) ++
      (if 0 < duration.months then
        [toString duration.months ++ " month" ++ (if duration.months ≠ 1 then "s" else "")]
      else []) ++
      (if 0 < duration.days then
        [toString duration.days ++ " day" ++ (if duration.days ≠ 1 then "s" else "")]
      else []) ++
      (if duration.years = 0 ∧ duration.months = 0 then
        (if 0 < duration.hours then
          [toString duration.hours ++ " hour" ++ (if duration.hours ≠ 1 then "s" else "")]
        else []) ++
        (if 0 < duration.minutes then
          [toString duration.minutes ++ " minute" ++ (if duration.minutes ≠ 1 then "s" else "")]
        else [])
      else [])
    match parts with
    | [] => "0 minutes"
    | [p] => p
    | [p, q] => p ++ " and " ++ q
    | _ => String.intercalate ", " parts.dropLast ++ ", and " ++ parts.getLastD ""

/-- `DateCalculator.validateDateRange`: per-date format errors first
(collected for both dates), then the strict `target > start` range check
only when both dates are well-formed. -/
def validateDateRange (startDate targetDate : JSDate) : ValidationResult :=
  let errors₀ : List ValidationError :=
    (if ¬ jsIsValid startDate then
      [{ field := "startDate", message := "Start date is not a valid date"
         code := .INVALID_DATE_FORMAT }]
    else []) ++
    (if ¬ jsIsValid targetDate then
      [{ field := "targetDate", message := "Target date is not a valid date"
         code := .INVALID_DATE_FORMAT }]
    else [])
  let errors : List ValidationError :=
    errors₀ ++
    (match startDate, targetDate with
     | some s, some t =>
       if errors₀.length = 0 ∧ ¬ isAfter t s then
         [{ field := "targetDate", message := "Target date must be after start date"
            code := .INVALID_DATE_RANGE }]
       else []
     | _, _ => [])
  { isValid := errors.length == 0, errors := errors }

/-- `DateCalculator.validateHistoricalDate`: format check, then the date
must not lie before `now` minus `maxYearsInPast` years.  The source reads
the clock with `new Date()`; the reference instant is passed explicitly
here (the spec's reference-clock convention). -/
def validateHistoricalDate (date : JSDate) (maxYearsInPast : Nat)
    (now : Int) : ValidationResult :=
  match date with
  | none =>
    { isValid := false
      errors := [{ field := "date", message := "Date is not a valid date"
                   code := .INVALID_DATE_FORMAT }] }
  | some d =>
    let minDate := addYears now (-(maxYearsInPast : Int))
    let errors : List ValidationError :=
      if isBefore d minDate then
        [{ field := "date"
           message := "Date cannot be more than " ++ toString maxYearsInPast ++
             " years in the past"
           code := .HISTORICAL_LIMIT_EXCEEDED }]
      else []
    { isValid := errors.length == 0, errors := errors }

/-- `DateCalculator.validateFutureDate`: format check, then the date must
be strictly after the reference instant (the source's `new Date()`). -/
def validateFutureDate (date : JSDate) (now : Int) : ValidationResult :=
  match date with
  | none =>
    { isValid := false
      errors := [{ field := "date", message := "Date is not a valid date"
                   code := .INVALID_DATE_FORMAT }] }
  | some d =>
    let errors : List ValidationError :=
      if ¬ isAfter d now then
        [{ field := "date", message := "Date must be in the future"
           code := .FUTURE_START_DATE }]
      else []
    { isValid := errors.length == 0, errors := errors }

/-! ## TimeBasedManager (`src/lib/services/TimeBasedManager.ts`) -/

/-- `TimeBasedBarConfig`: input of bar creation. -/
structure TimeBasedBarConfig where
  title : String
  description : Option String
  timeBasedType : TimeBasedType
  startDate : JSDate
  targetDate : JSDate
deriving Repr, DecidableEq

/-- A persisted progress-bar record, holding the fields
`createTimeBasedBar` inserts (dates are stored as ISO strings in the
source; the instant is the faithful value of such a string). -/
structure DbRow where
  id : String
  title : String
  description : Option String
  currentValue : Int
  targetValue : Int
  unit : Option String
  unitPosition : Option String
  barType : String
  startDate : Int
  targetDate : Int
  timeBasedType : TimeBasedType
  isCompleted : Bool
  isOverdue : Bool
  createdAt : Int
  updatedAt : Int
deriving Repr, DecidableEq

/-- `TimeBasedManager.validateBarConfig`.  The source reads the clock via
`new Date()` in several places a few microseconds apart; the single
reference instant `now` is passed explicitly (the spec's reference-clock
convention).  Format errors on either date return early; afterwards the
range, scale and type-specific checks all append to one error list. -/
def validateBarConfig (config : TimeBasedBarConfig) (now : Int) :
    ValidationResult :=
  let errors₀ : List ValidationError :=
    (if ¬ jsIsValid config.startDate then
      [{ field := "startDate", message := "Start date is not a valid date"
         code := .INVALID_DATE_FORMAT }]
    else []) ++
    (if ¬ jsIsValid config.targetDate then
      [{ field := "targetDate", message := "Target date is not a valid date"
         code := .INVALID_DATE_FORMAT }]
    else [])
  if 0 < errors₀.length then { isValid := false, errors := errors₀ }
  else
    match config.startDate, config.targetDate with
    | some s, some t =>
      let errors₁ := errors₀ ++
        (validateDateRange (some s) (some t)).errors ++
        (validateTimeScale (some s) (some t)).errors
      let typeErrors : List ValidationError :=
        match config.timeBasedType with
        | .countUp =>
          (if now < s then
            [{ field := "startDate"
               message := "Count-up bars require a start date in the past"
               code := .FUTURE_START_DATE }]
          else []) ++
          (validateHistoricalDate (some s) 10 now).errors ++
          (validateFutureDate (some t) now).errors
        | .countDown => (validateFutureDate (some t) now).errors
        | .arrivalDate => []
      let errors := errors₁ ++ typeErrors
      { isValid := errors.length == 0, errors := errors }
    | _, _ =>
      -- unreachable: an absent date produces a format error above
      { isValid := errors₀.length == 0, errors := errors₀ }

/-- `TimeBasedManager.createTimeBasedBar`.  The record store is a list of
rows; `id` stands for `crypto.randomUUID()` and `now` for `new Date()`.
On validation failure the operation throws (here: returns `.error`) with
the aggregate message and the store is untouched; on success the initial
`ProgressCalculation` at `now` supplies `currentValue` / `targetValue` /
`isCompleted` / `isOverdue` and the row is inserted. -/
def createTimeBasedBar (config : TimeBasedBarConfig) (id : String)
    (now : Int) (db : List DbRow) :
    List DbRow × Except String DbRow :=
  let validation := validateBarConfig config now
  if validation.isValid = false then
    (db, .error ("Validation failed: " ++
      String.intercalate ", " (validation.errors.map (·.message))))
  else
    match config.startDate, config.targetDate with
    | some s, some t =>
      let initialProgress := calculateProgress
        { startDate := s, targetDate := t
          timeBasedType := config.timeBasedType } now
      let row : DbRow :=
        { id := id, title := config.title, description := config.description
          currentValue := initialProgress.currentValue
          targetValue := initialProgress.targetValue
          unit := none, unitPosition := none
          barType := "time-based"
          startDate := s, targetDate := t
          timeBasedType := config.timeBasedType
          isCompleted := initialProgress.isCompleted
          isOverdue := initialProgress.isOverdue
          createdAt := now, updatedAt := now }
      (db ++ [row], .ok row)
    | _, _ =>
      -- unreachable: validation fails when either date is absent
      (db, .error "Validation failed: ")

/-! ## Refresh scheduler models

`useTimeBasedProgress` (`src/lib/hooks/useTimeBasedProgress.ts`) computes
once on mount and on identity/date changes, recomputes on a manual
`refresh`, and drives periodic recomputation through `useInterval`
(`src/lib/hooks/useInterval.ts`) with
`delay = isVisible ? 60000 : null`: a `null` delay installs no interval,
and any change of the delay clears the old interval and, when the delay
is non-null, installs a fresh one (full period from that moment).
The discrete-event model below records, for the single-bar hook, the
visibility flag, the arming time of the currently installed interval (if
any) and the times at which `calculate` ran. -/

/-- `useInterval` / `useTimeBasedProgress` interval period (60 s). -/
def UPDATE_INTERVAL_MS : Nat := 60000

/-- Events acting on the mounted hook: a visibility change (from
`useVisibilityChange`), the armed interval firing, a manual `refresh`
call, and a change of the bar's identity/date dependency key (which
re-runs the calculate effect). -/
inductive HookEvent where
  | setVisibility (visible : Bool) (t : Nat)
  | timerFire (t : Nat)
  | refresh (t : Nat)
  | depsChange (t : Nat)
deriving Repr, DecidableEq

/-- State of the mounted `useTimeBasedProgress` hook. -/
structure HookState where
  visible : Bool
  armedAt : Option Nat
  calcTimes : List Nat
deriving Repr, DecidableEq

/-- One step of the hook model.  A visibility change re-runs the
`useInterval` effect only when the delay actually changes: the old
interval is cleared, and a new one is armed (at the full period) exactly
when the page became visible.  An armed interval fires each
`UPDATE_INTERVAL_MS` after its arming/previous firing and runs
`calculate`; a manual refresh or a dependency change runs `calculate`
directly. -/
def hookStep (s : HookState) : HookEvent → HookState
  | .setVisibility b t =>
    if b = s.visible then s
    else { s with visible := b, armedAt := if b then some t else none }
  | .timerFire t =>
    match s.armedAt with
    | some t₀ =>
      if t = t₀ + UPDATE_INTERVAL_MS then
        { s with armedAt := some t, calcTimes := t :: s.calcTimes }
      else s
    | none => s
  | .refresh t => { s with calcTimes := t :: s.calcTimes }
  | .depsChange t => { s with calcTimes := t :: s.calcTimes }

/-- Hook state right after mount at time `t`: the initial effect runs
`calculate` once, and the interval is installed only when visible. -/
def hookInit (visible : Bool) (t : Nat) : HookState :=
  { visible := visible, armedAt := if visible then some t else none
    calcTimes := [t] }

/-- Run the hook model over an event trace. -/
def hookRun (s : HookState) (events : List HookEvent) : HookState :=
  events.foldl hookStep s

/-- `AutoUpdateSystem` (`src/unnamed/part_004`, lines 472-732) modelled
as events over its observable update behaviour: `startUpdating` stores
the time-based bars, arms a 60-second interval and performs an immediate
`batchUpdate`; the interval keeps firing regardless of tab visibility
(the source comments that when the tab becomes hidden "the interval
continues"); the `visibilitychange` handler performs an immediate
`batchUpdate` whenever the tab becomes visible. -/
structure AutoState where
  isUpdating : Bool
  barCount : Nat
  visible : Bool
  batchUpdates : Nat
deriving Repr, DecidableEq

/-- `AutoUpdateSystem.batchUpdate`: recomputes all registered bars unless
updating is stopped or there are no bars. -/
def autoBatchUpdate (s : AutoState) : AutoState :=
  if s.isUpdating && 0 < s.barCount then
    { s with batchUpdates := s.batchUpdates + 1 }
  else s

/-- Events acting on `AutoUpdateSystem`. -/
inductive AutoEvent where
  | startUpdating (timeBasedBars : Nat)
  | intervalTick
  | visibilityChange (visible : Bool)
  | stopUpdating
deriving Repr, DecidableEq

/-- One step of the `AutoUpdateSystem` model, following
`startUpdating` / the interval callback / `setupVisibilityHandling` /
`stopUpdating`. -/
def autoStep (s : AutoState) : AutoEvent → AutoState
  | .startUpdating n =>
    autoBatchUpdate { isUpdating := true, barCount := n, visible := s.visible
                      batchUpdates := s.batchUpdates }
  | .intervalTick => autoBatchUpdate s
  | .visibilityChange b =>
    let s' := { s with visible := b }
    if b then autoBatchUpdate s' else s'
  | .stopUpdating => { s with isUpdating := false, barCount := 0 }

/-- Run the `AutoUpdateSystem` model over an event trace from the idle
initial state. -/
def autoRun (events : List AutoEvent) : AutoState :=
  events.foldl autoStep
    { isUpdating := false, barCount := 0, visible := true, batchUpdates := 0 }

/-! ## Spec-side reference definitions

These definitions follow the specification's words (not the source) and
are used on the right-hand side of refinement statements. -/

/-- Modelled from the spec: a count with its pluralised unit name
("pluralized with an s exactly when the value is not 1"). -/
def pluralUnit (n : Nat) (unit : String) : String :=
  toString n ++ (" " ++ unit) ++ (if n = 1 then "" else "s")

/-- Modelled from the spec: join one part as-is, two parts with " and ",
three or more parts with commas and a final ", and "; an empty part list
renders as "0 minutes". -/
def oxfordJoin : List String → String
  | [] => "0 minutes"
  | [p] => p
  | [p, q] => p ++ " and " ++ q
  | parts => String.intercalate ", " parts.dropLast ++ ", and " ++ parts.getLastD ""

/-- Modelled from the spec: `formatDuration` as the claim describes it —
"0 minutes" when all five calendar fields are zero; otherwise years,
months and days (each omitted when zero), hours and minutes only when
years and months are both zero, Oxford-joined. -/
def formatDurationSpec (d : Duration) : String :=
  if d.years = 0 ∧ d.months = 0 ∧ d.days = 0 ∧ d.hours = 0 ∧ d.minutes = 0 then
    "0 minutes"
  else
    oxfordJoin
      ((if d.years = 0 then [] else [pluralUnit d.years "year"]) ++
       (if d.months = 0 then [] else [pluralUnit d.months "month"]) ++
       (if d.days = 0 then [] else [pluralUnit d.days "day"]) ++
       (if d.years = 0 ∧ d.months = 0 then
         (if d.hours = 0 then [] else [pluralUnit d.hours "hour"]) ++
         (if d.minutes = 0 then [] else [pluralUnit d.minutes "minute"])
       else []))

/-- JS `a > b` where `a` may be an Invalid Date (NaN compares false). -/
def jsGtInstant (a : JSDate) (b : Int) : Bool :=
  match a with
  | some x => b < x
  | none => false

/-- Modelled from the spec: the complete error list bar-config validation
collects — format errors on either date stop further validation;
otherwise the range check, the scale check and the type-specific checks
are all run and their errors concatenated. -/
def collectedConfigErrors (config : TimeBasedBarConfig) (now : Int) :
    List ValidationError :=
  let formatErrors : List ValidationError :=
    (if ¬ jsIsValid config.startDate then
      [{ field := "startDate", message := "Start date is not a valid date"
         code := .INVALID_DATE_FORMAT }]
    else []) ++
    (if ¬ jsIsValid config.targetDate then
      [{ field := "targetDate", message := "Target date is not a valid date"
         code := .INVALID_DATE_FORMAT }]
    else [])
  if formatErrors ≠ [] then formatErrors
  else
    (validateDateRange config.startDate config.targetDate).errors ++
    (validateTimeScale config.startDate config.targetDate).errors ++
    (match config.timeBasedType with
     | .countUp =>
       (if jsGtInstant config.startDate now then
         [{ field := "startDate"
            message := "Count-up bars require a start date in the past"
            code := .FUTURE_START_DATE }]
       else []) ++
       (validateHistoricalDate config.startDate 10 now).errors ++
       (validateFutureDate config.targetDate now).errors
     | .countDown => (validateFutureDate config.targetDate now).errors
     | .arrivalDate => [])

/-! ## Concrete instants and inputs used in witnesses and counterexamples -/

/-- Instant of a UTC calendar datetime (whole minutes). -/
def mkUTC (y : Int) (m d h mi : Nat) : Int :=
  mkFromCivil y m (d : Int) ((h * msPerHour : Nat) + (mi * msPerMinute : Nat))

/-- 2024-01-01T00:00Z. -/
def jan1_2024 : Int := mkUTC 2024 1 1 0 0

/-- 2024-01-02T12:00Z. -/
def jan2noon_2024 : Int := mkUTC 2024 1 2 12 0

/-- 2024-01-02T00:00Z. -/
def jan2_2024 : Int := mkUTC 2024 1 2 0 0

/-- 2024-01-01T12:00Z. -/
def jan1noon_2024 : Int := mkUTC 2024 1 1 12 0

/-- A bar spanning 1.5 days: 2024-01-01T00:00Z to 2024-01-02T12:00Z. -/
def cxBarC1 : TimeBasedBar :=
  { startDate := jan1_2024, targetDate := jan2noon_2024
    timeBasedType := .countUp }

/-- A bar spanning half a day: 2024-01-01T00:00Z to 2024-01-01T12:00Z. -/
def cxBarC2 : TimeBasedBar :=
  { startDate := jan1_2024, targetDate := jan1noon_2024
    timeBasedType := .countUp }

/-- A count-up bar over the leap year 2024. -/
def wBarC3 : TimeBasedBar :=
  { startDate := jan1_2024, targetDate := mkUTC 2024 12 31 0 0
    timeBasedType := .countUp }

/-- 1950-01-01T00:00Z. -/
def jan1_1950 : Int := mkUTC 1950 1 1 0 0

/-- 2000-01-01T00:00Z (exactly 50 full years after `jan1_1950`). -/
def jan1_2000 : Int := mkUTC 2000 1 1 0 0

/-- 2020-06-01T00:00Z. -/
def jun1_2020 : Int := mkUTC 2020 6 1 0 0

/-- 2024-06-01T00:00Z. -/
def jun1_2024 : Int := mkUTC 2024 6 1 0 0

/-- A configuration whose target date is the Invalid Date. -/
def wConfigC6 : TimeBasedBarConfig :=
  { title := "w", description := none, timeBasedType := .arrivalDate
    startDate := some jan1_2024, targetDate := none }

/-- A valid arrival-date configuration (start 2024-01-01, target
2024-12-31). -/
def wConfigC6ok : TimeBasedBarConfig :=
  { title := "w", description := none, timeBasedType := .arrivalDate
    startDate := some jan1_2024, targetDate := some (mkUTC 2024 12 31 0 0) }

/-! ## Helper lemmas -/

theorem jsQuot_natAbs (a : Int) (b : Nat) : (jsQuot a b).natAbs = a.natAbs / b := by
  unfold jsQuot
  split
  · exact Int.natAbs_ofNat _
  · rw [Int.natAbs_neg, Int.natAbs_ofNat]

theorem jsQuot_of_nonneg {a : Int} (b : Nat) (h : 0 ≤ a) :
    jsQuot a b = ((a.natAbs / b : Nat) : Int) := by
  unfold jsQuot
  rw [if_pos h]

theorem jsQuot_nonpos {a : Int} (b : Nat) (h : a < 0) : jsQuot a b ≤ 0 := by
  unfold jsQuot
  rw [if_neg (by omega)]
  exact neg_nonpos.mpr (Int.natCast_nonneg _)

theorem pct_clamp_eq {e t : Int} (h0 : 0 ≤ e) (h1 : e ≤ t) (h2 : 0 < t) :
    min 100 (max 0 ((e : ℚ) / (t : ℚ) * 100)) = (e : ℚ) / (t : ℚ) * 100 := by
  have ht : (0 : ℚ) < (t : ℚ) := by exact_mod_cast h2
  have he : (0 : ℚ) ≤ (e : ℚ) := by exact_mod_cast h0
  have het : (e : ℚ) ≤ (t : ℚ) := by exact_mod_cast h1
  have h3 : (0 : ℚ) ≤ (e : ℚ) / (t : ℚ) := div_nonneg he ht.le
  have h4 : (e : ℚ) / (t : ℚ) ≤ 1 := (div_le_one ht).mpr het
  rw [max_eq_right, min_eq_right] <;> nlinarith

theorem pct_clamp_full {e t : Int} (h1 : t ≤ e) (h2 : 0 < t) :
    min 100 (max 0 ((e : ℚ) / (t : ℚ) * 100)) = 100 := by
  have ht : (0 : ℚ) < (t : ℚ) := by exact_mod_cast h2
  have het : (t : ℚ) ≤ (e : ℚ) := by exact_mod_cast h1
  have h4 : (1 : ℚ) ≤ (e : ℚ) / (t : ℚ) := (one_le_div ht).mpr het
  have h5 : (100 : ℚ) ≤ (e : ℚ) / (t : ℚ) * 100 := by nlinarith
  rw [max_eq_right, min_eq_left] <;> linarith

theorem countP_filter_range_card (q : Nat → Bool) (n : Nat) :
    ((Finset.range n).filter (fun m => q m)).card = (List.range n).countP q := by
  induction n with
  | zero => simp
  | succ k ih =>
    rw [Finset.range_succ, Finset.filter_insert, List.range_succ,
      List.countP_append]
    cases h : q k with
    | true =>
      rw [if_pos rfl, Finset.card_insert_of_not_mem (by simp)]
      simp [ih, h]
    | false => simp [ih, h]

theorem countP_map_range_Icc (a b : Int) (p : Int → Bool) :
    ((List.range (b + 1 - a).toNat).map (fun i : Nat => a + (i : Int))).countP p
      = ((Finset.Icc a b).filter (fun y => p y)).card := by
  rw [List.countP_map, Int.Icc_eq_finset_map, Finset.filter_map,
    Finset.card_map, ← countP_filter_range_card]
  rfl

/-- C9: the duration computed from two instants has `total*` fields equal
to the absolute raw difference in whole days / hours / minutes (regardless
of argument order), and all eight fields are non-negative. -/
theorem claim_C9 (startDate endDate : Int) :
    ((calculateDuration startDate endDate).totalDays
        = (endDate - startDate).natAbs / msPerDay ∧
      (calculateDuration startDate endDate).totalHours
        = (endDate - startDate).natAbs / msPerHour ∧
      (calculateDuration startDate endDate).totalMinutes
        = (endDate - startDate).natAbs / msPerMinute) ∧
    ((calculateDuration startDate endDate).totalDays
        = (calculateDuration endDate startDate).totalDays ∧
      (calculateDuration startDate endDate).totalHours
        = (calculateDuration endDate startDate).totalHours ∧
      (calculateDuration startDate endDate).totalMinutes
        = (calculateDuration endDate startDate).totalMinutes) ∧
    (0 ≤ ((calculateDuration startDate endDate).years : Int) ∧
      0 ≤ ((calculateDuration startDate endDate).months : Int) ∧
      0 ≤ ((calculateDuration startDate endDate).days : Int) ∧
      0 ≤ ((calculateDuration startDate endDate).hours : Int) ∧
      0 ≤ ((calculateDuration startDate endDate).minutes : Int) ∧
      0 ≤ ((calculateDuration startDate endDate).totalDays : Int) ∧
      0 ≤ ((calculateDuration startDate endDate).totalHours : Int) ∧
      0 ≤ ((calculateDuration startDate endDate).totalMinutes : Int)) := by
  refine ⟨⟨?_, ?_, ?_⟩, ⟨?_, ?_, ?_⟩,
    Int.natCast_nonneg _, Int.natCast_nonneg _, Int.natCast_nonneg _,
    Int.natCast_nonneg _, Int.natCast_nonneg _, Int.natCast_nonneg _,
    Int.natCast_nonneg _, Int.natCast_nonneg _⟩ <;>
  simp only [calculateDuration, differenceInDays, differenceInHours,
    differenceInMinutes, jsQuot_natAbs] <;>
  first
  | rfl
  | (congr 1; omega)

theorem mkResult_ok (errs : List ValidationError) :
    (({ isValid := errs.length == 0, errors := errs } : ValidationResult).isValid = true ↔
     ({ isValid := errs.length == 0, errors := errs } : ValidationResult).errors = []) := by
  simp [List.length_eq_zero]

/-- C10: every validation operation returns `isValid = true` exactly when
its error list is empty. -/
theorem claim_C10 :
    (∀ s t : JSDate,
      ((validateDateRange s t).isValid = true ↔ (validateDateRange s t).errors = [])) ∧
    (∀ (d : JSDate) (m : Nat) (now : Int),
      ((validateHistoricalDate d m now).isValid = true ↔
        (validateHistoricalDate d m now).errors = [])) ∧
    (∀ (d : JSDate) (now : Int),
      ((validateFutureDate d now).isValid = true ↔
        (validateFutureDate d now).errors = [])) ∧
    (∀ s t : JSDate,
      ((validateTimeScale s t).isValid = true ↔ (validateTimeScale s t).errors = [])) ∧
    (∀ (config : TimeBasedBarConfig) (now : Int),
      ((validateBarConfig config now).isValid = true ↔
        (validateBarConfig config now).errors = [])) := by
  refine ⟨?_, ?_, ?_, ?_, ?_⟩
  · intro s t
    unfold validateDateRange
    exact mkResult_ok _
  · intro d m now
    unfold validateHistoricalDate
    rcases d with _ | d
    · simp
    · exact mkResult_ok _
  · intro d now
    unfold validateFutureDate
    rcases d with _ | d
    · simp
    · exact mkResult_ok _
  · intro s t
    unfold validateTimeScale
    split
    · simp
    · rcases s with _ | s <;> rcases t with _ | t <;> simp [mkResult_ok]
  · intro config now
    obtain ⟨title, desc, ty, sd, td⟩ := config
    unfold validateBarConfig
    rcases sd with _ | s <;> rcases td with _ | t <;> rcases ty <;>
      simp [jsIsValid, List.length_eq_zero]

theorem differenceInYears_natAbs_comm (a b : Int) :
    (differenceInYears a b).natAbs = (differenceInYears b a).natAbs := by
  simp only [differenceInYears, differenceInCalendarYears, signCompare]
  split_ifs <;> first | contradiction | omega

/-- C4: date-range validity is exactly strict ordering of the instants;
time-scale validity is exactly a full-year distance of at most 50, is
symmetric in its arguments, and accepts the 50-year boundary. -/
theorem claim_C4 :
    (∀ s t : Int,
      ((validateDateRange (some s) (some t)).isValid = true ↔ s < t) ∧
      ((validateTimeScale (some s) (some t)).isValid = true ↔
        (differenceInYears t s).natAbs ≤ MAX_YEARS) ∧
      validateTimeScale (some s) (some t) = validateTimeScale (some t) (some s)) ∧
    (validateTimeScale (some jan1_1950) (some jan1_2000)).isValid = true ∧
    (differenceInYears jan1_2000 jan1_1950).natAbs = MAX_YEARS := by
  refine ⟨fun s t => ⟨?_, ?_, ?_⟩, by decide, by decide⟩
  · by_cases h : s < t <;>
      simp [validateDateRange, jsIsValid, isAfter, h, List.length_eq_zero]
  · by_cases h : MAX_YEARS < (differenceInYears t s).natAbs <;>
      simp [validateTimeScale, jsIsValid, h, List.length_eq_zero] <;> try omega
  · simp only [validateTimeScale, jsIsValid, Option.isSome_some]
    rw [differenceInYears_natAbs_comm t s]

/-- C5 (amended): countLeapYears counts the Gregorian leap years in the
closed year interval from the start date's UTC year to the end date's UTC
year (empty, hence 0, when the start year exceeds the end year). -/
theorem claim_C5 (s e : Int) :
    countLeapYears s e =
      ((Finset.Icc (getUTCFullYear s) (getUTCFullYear e)).filter
        (fun y => isLeapYearGregorian y)).card := by
  simp only [countLeapYears]
  exact countP_map_range_Icc _ _ _

/-- C5 counterexample: swapping the arguments changes the result, so the
claimed min/max interval and argument symmetry fail. -/
theorem claim_C5_counterexample :
    ¬ (countLeapYears jun1_2024 jun1_2020 = countLeapYears jun1_2020 jun1_2024) ∧
    countLeapYears jun1_2024 jun1_2020 = 0 ∧
    countLeapYears jun1_2020 jun1_2024 = 2 := by decide

/-- C7: formatDuration refines the spec description, and the spec's
worked examples hold. -/
theorem claim_C7 :
    (∀ d : Duration, formatDuration d = formatDurationSpec d) ∧
    formatDuration
      { years := 2, months := 3, days := 5, hours := 0, minutes := 0
        totalDays := 0, totalHours := 0, totalMinutes := 0 }
      = "2 years, 3 months, and 5 days" ∧
    formatDuration
      { years := 0, months := 0, days := 15, hours := 6, minutes := 30
        totalDays := 0, totalHours := 0, totalMinutes := 0 }
      = "15 days, 6 hours, and 30 minutes" ∧
    formatDuration zeroDuration = "0 minutes" ∧
    formatDuration
      { years := 1, months := 1, days := 1, hours := 0, minutes := 0
        totalDays := 0, totalHours := 0, totalMinutes := 0 }
      = "1 year, 1 month, and 1 day" := by
  refine ⟨?_, by decide, by decide, by decide, by decide⟩
  rintro ⟨y, mo, da, h, mi, td, th, tm⟩
  unfold formatDuration formatDurationSpec pluralUnit oxfordJoin
  by_cases hy : y = 0 <;> by_cases hmo : mo = 0 <;> by_cases hda : da = 0 <;>
    by_cases hh : h = 0 <;> by_cases hmi : mi = 0 <;>
    simp [hy, hmo, hda, hh, hmi, ne_eq, ite_not, Nat.pos_iff_ne_zero]

theorem calculateProgress_percentage (bar : TimeBasedBar) (cur : Int) :
    (calculateProgress bar cur).percentage =
      if 0 < getDurationInDays bar.startDate bar.targetDate then
        min 100 (max 0 ((getElapsedDays bar.startDate cur : ℚ) /
          (getDurationInDays bar.startDate bar.targetDate : ℚ) * 100))
      else 0 := rfl

theorem calculateProgress_targetValue (bar : TimeBasedBar) (cur : Int) :
    (calculateProgress bar cur).targetValue =
      getDurationInDays bar.startDate bar.targetDate := rfl

theorem calculateProgress_elapsedTime (bar : TimeBasedBar) (cur : Int) :
    (calculateProgress bar cur).elapsedTime =
      if isBefore cur bar.startDate then zeroDuration
      else calculateDuration bar.startDate cur := rfl

theorem calculateProgress_remainingTime (bar : TimeBasedBar) (cur : Int) :
    (calculateProgress bar cur).remainingTime =
      if isAfter cur bar.targetDate then zeroDuration
      else if isBefore cur bar.startDate then
        calculateDuration bar.startDate bar.targetDate
      else calculateDuration cur bar.targetDate := rfl

theorem calculateProgress_isCompleted (bar : TimeBasedBar) (cur : Int) :
    (calculateProgress bar cur).isCompleted =
      (decide (100 ≤ (calculateProgress bar cur).percentage) ||
        !(isBefore cur bar.targetDate)) := rfl

theorem calculateProgress_isOverdue (bar : TimeBasedBar) (cur : Int) :
    (calculateProgress bar cur).isOverdue =
      (decide (bar.timeBasedType = .arrivalDate) && isAfter cur bar.targetDate) := rfl

/-- C1 (amended): isCompleted holds iff the percentage has reached 100 or
the reference instant is at or past the target; isOverdue is exactly
"arrival-date and strictly past the target". -/
theorem claim_C1 (bar : TimeBasedBar) (currentDate : Int) :
    ((calculateProgress bar currentDate).isCompleted = true ↔
      (100 ≤ (calculateProgress bar currentDate).percentage ∨
        bar.targetDate ≤ currentDate)) ∧
    ((calculateProgress bar currentDate).isOverdue = true ↔
      (bar.timeBasedType = .arrivalDate ∧ bar.targetDate < currentDate)) := by
  constructor
  · rw [calculateProgress_isCompleted]
    simp [isBefore, not_lt]
  · rw [calculateProgress_isOverdue]
    simp [isAfter]

/-- C1 counterexample: a bar spanning 1.5 days is already completed half
a day before its target instant (whole-day truncation pushes the
percentage to 100), so "isCompleted iff current at or after target"
fails. -/
theorem claim_C1_counterexample :
    (calculateProgress cxBarC1 jan2_2024).isCompleted = true ∧
    jan2_2024 < cxBarC1.targetDate := by
  have h1 : getDurationInDays cxBarC1.startDate cxBarC1.targetDate = 1 := by decide
  have h2 : getElapsedDays cxBarC1.startDate jan2_2024 = 1 := by decide
  have hp : (calculateProgress cxBarC1 jan2_2024).percentage = 100 := by
    rw [calculateProgress_percentage, h1, h2]
    norm_num
  refine ⟨?_, by decide⟩
  rw [calculateProgress_isCompleted, hp]
  simp

/-- C2 (amended): before the start instant the elapsed duration is
all-zero and the percentage is 0; after the target instant the remaining
duration is all-zero, and the percentage is 100 provided the start does
not come after the target and the span covers at least one whole day
(`targetValue` positive); for a `targetValue` of zero the percentage is
0. -/
theorem claim_C2 (bar : TimeBasedBar) (currentDate : Int) :
    (currentDate < bar.startDate →
      (calculateProgress bar currentDate).elapsedTime = zeroDuration ∧
      (calculateProgress bar currentDate).percentage = 0) ∧
    (bar.targetDate < currentDate →
      (calculateProgress bar currentDate).remainingTime = zeroDuration) ∧
    (bar.targetDate < currentDate → bar.startDate ≤ bar.targetDate →
      0 < (calculateProgress bar currentDate).targetValue →
      (calculateProgress bar currentDate).percentage = 100) ∧
    ((calculateProgress bar currentDate).targetValue = 0 →
      (calculateProgress bar currentDate).percentage = 0) := by
  refine ⟨fun h => ⟨?_, ?_⟩, fun h => ?_, fun h h2 h3 => ?_, fun h => ?_⟩
  · rw [calculateProgress_elapsedTime]
    simp [isBefore, h]
  · have he : getElapsedDays bar.startDate currentDate = 0 := by
      have hq := jsQuot_nonpos msPerDay
        (show currentDate - bar.startDate < 0 by omega)
      simp only [getElapsedDays, differenceInDays]
      omega
    rw [calculateProgress_percentage, he]
    split_ifs <;> norm_num
  · rw [calculateProgress_remainingTime]
    simp [isAfter, h]
  · rw [calculateProgress_targetValue] at h3
    have hle : getDurationInDays bar.startDate bar.targetDate ≤
        getElapsedDays bar.startDate currentDate := by
      have hq1 : differenceInDays bar.targetDate bar.startDate =
          (((bar.targetDate - bar.startDate).natAbs / msPerDay : Nat) : Int) :=
        jsQuot_of_nonneg _ (by omega)
      have hq2 : differenceInDays currentDate bar.startDate =
          (((currentDate - bar.startDate).natAbs / msPerDay : Nat) : Int) :=
        jsQuot_of_nonneg _ (by omega)
      simp only [getDurationInDays, getElapsedDays, hq1, hq2,
        Int.natAbs_ofNat, msPerDay]
      omega
    rw [calculateProgress_percentage]
    rw [if_pos h3]
    exact pct_clamp_full hle h3
  · rw [calculateProgress_targetValue] at h
    rw [calculateProgress_percentage, h]
    norm_num

/-- C2 counterexample: a valid bar whose whole span is half a day has
percentage 0 (not 100) at an instant strictly after the target, because
`totalDays` truncates to 0. -/
theorem claim_C2_counterexample :
    cxBarC2.targetDate < jan2_2024 ∧
    ¬ (calculateProgress cxBarC2 jan2_2024).percentage = 100 := by
  have h1 : getDurationInDays cxBarC2.startDate cxBarC2.targetDate = 0 := by decide
  refine ⟨by decide, ?_⟩
  rw [calculateProgress_percentage, h1]
  norm_num

/-- C2 witness: both clamping branches at concrete inputs. -/
theorem claim_C2_witness :
    ((calculateProgress wBarC3 jan1_1950).elapsedTime = zeroDuration ∧
      (calculateProgress wBarC3 jan1_1950).percentage = 0) ∧
    (calculateProgress cxBarC1 (mkUTC 2024 1 3 0 0)).remainingTime = zeroDuration := by
  exact ⟨(claim_C2 wBarC3 jan1_1950).1 (by decide),
    (claim_C2 cxBarC1 (mkUTC 2024 1 3 0 0)).2.1 (by decide)⟩

theorem calculateDuration_totalDays (s e : Int) :
    (calculateDuration s e).totalDays = (e - s).natAbs / msPerDay := by
  simp only [calculateDuration, differenceInDays, jsQuot_natAbs]

theorem getDurationInDays_eq (s e : Int) :
    getDurationInDays s e = (((e - s).natAbs / msPerDay : Nat) : Int) := by
  simp only [getDurationInDays, differenceInDays, jsQuot_natAbs]

theorem getElapsedDays_of_le {s c : Int} (h : s ≤ c) :
    getElapsedDays s c = (((c - s).natAbs / msPerDay : Nat) : Int) := by
  simp only [getElapsedDays, differenceInDays]
  rw [jsQuot_of_nonneg _ (by omega : (0 : Int) ≤ c - s)]
  exact max_eq_right (Int.natCast_nonneg _)

/-- C3: for a reference instant between start and target, elapsed plus
remaining whole days equals the bar's total days within a 1-day
tolerance, and the percentage is within 1 point of
elapsed / total * 100. -/
theorem claim_C3 (bar : TimeBasedBar) (currentDate : Int)
    (h1 : bar.startDate < bar.targetDate)
    (h2 : bar.startDate ≤ currentDate) (h3 : currentDate ≤ bar.targetDate) :
    |(((calculateProgress bar currentDate).elapsedTime.totalDays : Int) +
        ((calculateProgress bar currentDate).remainingTime.totalDays : Int) -
        (calculateProgress bar currentDate).targetValue)| ≤ 1 ∧
    |((calculateProgress bar currentDate).percentage -
        ((calculateProgress bar currentDate).elapsedTime.totalDays : ℚ) /
          ((calculateProgress bar currentDate).targetValue : ℚ) * 100)| ≤ 1 := by
  have hnb : ¬ currentDate < bar.startDate := not_lt.mpr h2
  have hna : ¬ bar.targetDate < currentDate := not_lt.mpr h3
  have hE : (calculateProgress bar currentDate).elapsedTime =
      calculateDuration bar.startDate currentDate := by
    rw [calculateProgress_elapsedTime]
    simp [isBefore, hnb]
  have hR : (calculateProgress bar currentDate).remainingTime =
      calculateDuration currentDate bar.targetDate := by
    rw [calculateProgress_remainingTime]
    simp [isAfter, isBefore, hnb, hna]
  have hT := calculateProgress_targetValue bar currentDate
  constructor
  · rw [hE, hR, hT, calculateDuration_totalDays, calculateDuration_totalDays,
      getDurationInDays_eq]
    rw [abs_le]
    simp only [msPerDay]
    omega
  · rw [hE, hT, calculateProgress_percentage, calculateDuration_totalDays,
      getDurationInDays_eq, getElapsedDays_of_le h2]
    have hAC : (currentDate - bar.startDate).natAbs / msPerDay ≤
        (bar.targetDate - bar.startDate).natAbs / msPerDay :=
      Nat.div_le_div_right (by omega)
    by_cases hpos :
        (0 : Int) < (((bar.targetDate - bar.startDate).natAbs / msPerDay : Nat) : Int)
    · rw [if_pos hpos]
      rw [pct_clamp_eq (Int.natCast_nonneg _) (by exact_mod_cast hAC) hpos]
      simp only [Int.cast_natCast]
      rw [sub_self, abs_zero]
      norm_num
    · rw [if_neg hpos]
      have hC : (bar.targetDate - bar.startDate).natAbs / msPerDay = 0 :=
        Nat.le_zero.mp (by exact_mod_cast not_lt.mp hpos)
      have hA : (currentDate - bar.startDate).natAbs / msPerDay = 0 :=
        Nat.le_zero.mp (hC ▸ hAC)
      rw [hC, hA]
      norm_num

/-- C3 witness: the tolerance bounds at a concrete mid-year instant of a
concrete year-long bar. -/
theorem claim_C3_witness :
    |(((calculateProgress wBarC3 (mkUTC 2024 7 1 0 0)).elapsedTime.totalDays : Int) +
        ((calculateProgress wBarC3 (mkUTC 2024 7 1 0 0)).remainingTime.totalDays : Int) -
        (calculateProgress wBarC3 (mkUTC 2024 7 1 0 0)).targetValue)| ≤ 1 ∧
    |((calculateProgress wBarC3 (mkUTC 2024 7 1 0 0)).percentage -
        ((calculateProgress wBarC3 (mkUTC 2024 7 1 0 0)).elapsedTime.totalDays : ℚ) /
          ((calculateProgress wBarC3 (mkUTC 2024 7 1 0 0)).targetValue : ℚ) * 100)| ≤ 1 :=
  claim_C3 wBarC3 (mkUTC 2024 7 1 0 0) (by decide) (by decide) (by decide)

/-- C6: bar creation fails atomically with the aggregate message of every
collected validation error, or succeeds and persists a row whose
`currentValue` / `targetValue` / `isCompleted` / `isOverdue` come from
the `ProgressCalculation` computed at creation time; the collected
errors are the format errors alone (which stop further validation) or
the concatenation of the range, scale and type-specific checks. -/
theorem claim_C6 (config : TimeBasedBarConfig) (id : String) (now : Int)
    (db : List DbRow) :
    ((validateBarConfig config now).isValid = false →
      (createTimeBasedBar config id now db).1 = db ∧
      (createTimeBasedBar config id now db).2 = .error ("Validation failed: " ++
        String.intercalate ", "
          (((validateBarConfig config now).errors).map (·.message)))) ∧
    ((validateBarConfig config now).isValid = true →
      ∃ s t, config.startDate = some s ∧ config.targetDate = some t ∧
        ∃ row : DbRow,
          (createTimeBasedBar config id now db).1 = db ++ [row] ∧
          (createTimeBasedBar config id now db).2 = .ok row ∧
          row.currentValue = (calculateProgress
            { startDate := s, targetDate := t
              timeBasedType := config.timeBasedType } now).currentValue ∧
          row.targetValue = (calculateProgress
            { startDate := s, targetDate := t
              timeBasedType := config.timeBasedType } now).targetValue ∧
          row.isCompleted = (calculateProgress
            { startDate := s, targetDate := t
              timeBasedType := config.timeBasedType } now).isCompleted ∧
          row.isOverdue = (calculateProgress
            { startDate := s, targetDate := t
              timeBasedType := config.timeBasedType } now).isOverdue) ∧
    (validateBarConfig config now).errors = collectedConfigErrors config now := by
  refine ⟨fun h => ?_, fun h => ?_, ?_⟩
  · constructor <;> simp [createTimeBasedBar, h]
  · rcases hs : config.startDate with _ | s
    · exfalso
      rw [validateBarConfig] at h
      rw [hs] at h
      simp [jsIsValid] at h
    · rcases ht : config.targetDate with _ | t
      · exfalso
        rw [validateBarConfig] at h
        rw [ht] at h
        simp [jsIsValid] at h
      · refine ⟨s, t, rfl, rfl, ?_⟩
        simp only [createTimeBasedBar, h, Bool.true_eq_false, if_false, hs, ht]
        exact ⟨_, rfl, rfl, rfl, rfl, rfl, rfl⟩
  · obtain ⟨title, desc, ty, sd, td⟩ := config
    rcases sd with _ | s <;> rcases td with _ | t <;> rcases ty <;>
      simp [validateBarConfig, collectedConfigErrors, jsIsValid, jsGtInstant]

/-- C6 witness: an invalid target date fails creation with the aggregate
message and leaves the store untouched. -/
theorem claim_C6_witness :
    (createTimeBasedBar wConfigC6 "id-1" jan1_2024 []).1 = ([] : List DbRow) ∧
    (createTimeBasedBar wConfigC6 "id-1" jan1_2024 []).2 =
      .error "Validation failed: Target date is not a valid date" := by
  have h := (claim_C6 wConfigC6 "id-1" jan1_2024 []).1 (by decide)
  refine ⟨h.1, ?_⟩
  rw [h.2]
  rfl

/-- Invariant of the hook model: a hidden page has no installed interval
(`useInterval` with a `null` delay installs nothing). -/
def HookInv (s : HookState) : Prop := s.visible = false → s.armedAt = none

theorem hookInit_inv (v : Bool) (t : Nat) : HookInv (hookInit v t) := by
  intro hv
  simp only [hookInit] at hv ⊢
  simp [hv]

theorem hookStep_inv {s : HookState} (hs : HookInv s) (e : HookEvent) :
    HookInv (hookStep s e) := by
  cases e with
  | setVisibility b t =>
    by_cases hb : b = s.visible
    · simpa [hookStep, hb] using hs
    · intro hv
      simp only [hookStep, if_neg hb] at hv ⊢
      simp_all
  | timerFire t =>
    cases ha : s.armedAt with
    | none => simpa [hookStep, ha] using hs
    | some t₀ =>
      intro hv
      simp only [hookStep, ha] at hv ⊢
      split_ifs at hv ⊢ <;> simp_all [HookInv, ha]
  | refresh t => simpa [hookStep] using hs
  | depsChange t => simpa [hookStep] using hs

theorem hookStep_timerFire_stale {s : HookState} {t u : Nat}
    (ha : s.armedAt = some t) (hu : ¬ u = t + UPDATE_INTERVAL_MS) :
    hookStep s (.timerFire u) = s := by
  simp [hookStep, ha, hu]

theorem hookRun_inv {s : HookState} (hs : HookInv s) (events : List HookEvent) :
    HookInv (hookRun s events) := by
  induction events generalizing s with
  | nil => simpa [hookRun] using hs
  | cons e rest ih =>
    simpa [hookRun] using ih (hookStep_inv hs e)

/-- C8 (amended, hook scheduler): in any reachable state of the mounted
hook, (a) while hidden a timer firing changes nothing (no timer-driven
recomputation), (b) a visibility change never itself runs `calculate`,
and (c) resuming visibility arms the interval at that moment, and the
armed interval can only fire a full `UPDATE_INTERVAL_MS` later. -/
theorem claim_C8 (v : Bool) (t₀ : Nat) (events : List HookEvent) :
    ((hookRun (hookInit v t₀) events).visible = false →
      ∀ t, hookStep (hookRun (hookInit v t₀) events) (.timerFire t) =
        hookRun (hookInit v t₀) events) ∧
    (∀ b t,
      (hookStep (hookRun (hookInit v t₀) events) (.setVisibility b t)).calcTimes =
        (hookRun (hookInit v t₀) events).calcTimes) ∧
    ((hookRun (hookInit v t₀) events).visible = false →
      ∀ t,
        (hookStep (hookRun (hookInit v t₀) events)
          (.setVisibility true t)).armedAt = some t ∧
        ∀ u,
          hookStep
              (hookStep (hookRun (hookInit v t₀) events) (.setVisibility true t))
              (.timerFire u) ≠
            hookStep (hookRun (hookInit v t₀) events) (.setVisibility true t) →
          u = t + UPDATE_INTERVAL_MS) := by
  have hinv : HookInv (hookRun (hookInit v t₀) events) :=
    hookRun_inv (hookInit_inv v t₀) events
  refine ⟨fun hv t => ?_, fun b t => ?_, fun hv t => ⟨?_, fun u hne => ?_⟩⟩
  · simp [hookStep, hinv hv]
  · simp only [hookStep]
    split_ifs <;> rfl
  · simp [hookStep, hv]
  · by_cases hu : u = t + UPDATE_INTERVAL_MS
    · exact hu
    · exfalso
      have ha : (hookStep (hookRun (hookInit v t₀) events)
          (.setVisibility true t)).armedAt = some t := by
        simp [hookStep, hv]
      exact hne (hookStep_timerFire_stale ha hu)

/-- C8 counterexample: the `AutoUpdateSystem` scheduler keeps performing
batch recomputations from its interval while the tab is hidden, and
performs an immediate catch-up batch recomputation the moment the tab
becomes visible again. -/
theorem claim_C8_counterexample :
    (autoRun [.startUpdating 1, .visibilityChange false]).visible = false ∧
    (autoRun [.startUpdating 1, .visibilityChange false]).batchUpdates = 1 ∧
    (autoRun [.startUpdating 1, .visibilityChange false,
      .intervalTick]).batchUpdates = 2 ∧
    (autoRun [.startUpdating 1, .visibilityChange false, .intervalTick,
      .visibilityChange true]).batchUpdates = 3 := by
  decide

/-- C8 witness: concretely, after hiding the page at 30 s no timer fire
changes the state, and resuming visibility at 90 s re-arms the interval
at 90 s. -/
theorem claim_C8_witness :
    hookStep (hookRun (hookInit true 0) [HookEvent.setVisibility false 30000])
        (HookEvent.timerFire 60000) =
      hookRun (hookInit true 0) [HookEvent.setVisibility false 30000] ∧
    (hookStep (hookRun (hookInit true 0) [HookEvent.setVisibility false 30000])
        (HookEvent.setVisibility true 90000)).armedAt = some 90000 :=
  ⟨(claim_C8 true 0 [HookEvent.setVisibility false 30000]).1 (by decide) 60000,
   ((claim_C8 true 0 [HookEvent.setVisibility false 30000]).2.2 (by decide) 90000).1⟩

end ProgressBars
